import Mathlib

/-!
Verification of the tiled GPU relaxation solver (`LinSolve`) from
`src/lib.rs` / `src/gl_utils.rs`.

The host-side code is shallowly embedded: GPU texture and program handles are
abstract natural-number identifiers, and the backend calls made by `LinSolve::new`
and `LinSolve::step` are recorded as explicit event traces.  Machine-integer
casts (`as i32`, `as u32`) are modelled with explicit reductions modulo `2^32`.
-/

/-- Abstract handle for `glow::NativeTexture`. -/
abbrev NativeTexture := Nat

/-- Abstract handle for `glow::NativeProgram`. -/
abbrev NativeProgram := Nat

/-- `const LOCAL_SIZE: usize = 32;` — local size used in GPU kernels for X and Y. -/
def LOCAL_SIZE : Nat := 32

/-- Boundary condition settings (`enum Bounds`, `#[repr(i32)]`). -/
inductive Bounds where
  | Positive
  | NegX
  | NegY
deriving DecidableEq, Repr

/-- The `i32` discriminant of each `Bounds` variant. -/
def Bounds.toI32 : Bounds → Int
  | .Positive => 0
  | .NegX => 1
  | .NegY => 2

/-- Simulation dimensions, stored as tile counts (`struct SimulationSize`). -/
structure SimulationSize where
  x_tiles : Nat
  y_tiles : Nat
deriving DecidableEq, Repr

/-- `const STEPS_PER_DISPATCH: usize = 5;` — steps each solver dispatch comprises. -/
def LinSolve.STEPS_PER_DISPATCH : Nat := 5

/-- `const N_DISPATCHES: usize = 4;` — number of dispatches per solver step. -/
def LinSolve.N_DISPATCHES : Nat := 4

/-- `const TOTAL_STEPS: usize = Self::STEPS_PER_DISPATCH * Self::N_DISPATCHES;` -/
def LinSolve.TOTAL_STEPS : Nat := LinSolve.STEPS_PER_DISPATCH * LinSolve.N_DISPATCHES

/-- `const TILE_OUTPUT_SIZE: usize = LOCAL_SIZE - Self::STEPS_PER_DISPATCH * 2;` -/
def LinSolve.TILE_OUTPUT_SIZE : Nat := LOCAL_SIZE - LinSolve.STEPS_PER_DISPATCH * 2

/-- `SimulationSize::dims`: dimensions of the simulation volume (including boundaries). -/
def SimulationSize.dims (s : SimulationSize) : Nat × Nat :=
  (s.x_tiles * LinSolve.TILE_OUTPUT_SIZE, s.y_tiles * LinSolve.TILE_OUTPUT_SIZE)

/-- The solver state (`struct LinSolve`): two scratch textures, the compiled
program and the simulation size. -/
structure LinSolve where
  sim_scratch : NativeTexture
  wg_scratch : NativeTexture
  program : NativeProgram
  size : SimulationSize
deriving DecidableEq, Repr

/-- Rust `as u32` on a `usize` value: reduction modulo `2^32`. -/
def u32cast (n : Nat) : Nat := n % 2 ^ 32

/-- Rust `as i32` on a `usize` value: reduction modulo `2^32`, reinterpreted
as a signed 32-bit value. -/
def i32cast (n : Nat) : Int :=
  if n % 2 ^ 32 < 2 ^ 31 then ((n % 2 ^ 32 : Nat) : Int)
  else ((n % 2 ^ 32 : Nat) : Int) - 2 ^ 32

/-- Backend calls issued by `LinSolve::new`, in program order. -/
inductive NewEvent where
  | createProgram
  | createImage (width height : Int)
deriving DecidableEq, Repr

/-- Abstract model of the backend (`glow::Context`) as seen by `LinSolve::new`:
the outcome of compiling and linking the kernel program (`create_program`,
whose error carries the shader/program info log), and the outcome of
allocating an R32F image of given dimensions (`create_image`). -/
structure GlContext where
  createProgramResult : Except String NativeProgram
  createImageResult : Int → Int → Except String NativeTexture

/-- `LinSolve::new`: compiles the kernel program, then allocates `wg_scratch`
at `(x_tiles*LOCAL_SIZE, y_tiles*LOCAL_SIZE)` and `sim_scratch` at
`size.dims()`.  Returns the trace of backend calls made, and either the
constructed solver or the first error (each `?` aborts the sequence). -/
def LinSolve.new (gl : GlContext) (size : SimulationSize) :
    List NewEvent × Except String LinSolve :=
  match gl.createProgramResult with
  | .error e => ([.createProgram], .error e)
  | .ok program =>
    let ww : Int := i32cast (size.x_tiles * LOCAL_SIZE)
    let wh : Int := i32cast (size.y_tiles * LOCAL_SIZE)
    match gl.createImageResult ww wh with
    | .error e => ([.createProgram, .createImage ww wh], .error e)
    | .ok workgroup_scratch =>
      let (width, height) := size.dims
      match gl.createImageResult (i32cast width) (i32cast height) with
      | .error e =>
        ([.createProgram, .createImage ww wh, .createImage (i32cast width) (i32cast height)],
         .error e)
      | .ok sim_scratch =>
        ([.createProgram, .createImage ww wh, .createImage (i32cast width) (i32cast height)],
         .ok { program := program, wg_scratch := workgroup_scratch,
               sim_scratch := sim_scratch, size := size })

/-- `const X0_BIND: u32 = 0;` -/
def X0_BIND : Nat := 0

/-- `const READ_BIND: u32 = 1;` -/
def READ_BIND : Nat := 1

/-- `const WRITE_BIND: u32 = 2;` -/
def WRITE_BIND : Nat := 2

/-- `const SCRATCH_BIND: u32 = 3;` -/
def SCRATCH_BIND : Nat := 3

/-- Backend calls issued by `LinSolve::step`, in program order.  The constant
arguments of `bind_image_texture` (level `0`, layered `false`, layer `0`,
access `READ_WRITE`, format `R32F`) are the same at every call site and are
omitted from the event. -/
inductive GlEvent where
  | bindImageTexture (unit : Nat) (texture : NativeTexture)
  | dispatchCompute (groupsX groupsY groupsZ : Nat)
  | memoryBarrier
deriving DecidableEq, Repr

/-- The `for i in 0..Self::N_DISPATCHES` loop body of `LinSolve::step`,
threading the mutable `write_tex` through the remaining iterations.
`fuel` counts the iterations left; `i` is the loop index. -/
def LinSolve.stepLoop (s : LinSolve) (x : NativeTexture) :
    Nat → Nat → NativeTexture → List GlEvent × NativeTexture
  | 0, _, write_tex => ([], write_tex)
  | fuel + 1, i, _ =>
    let read_tex := if i &&& 1 = 0 then x else s.sim_scratch
    let write_tex := if i &&& 1 = 0 then s.sim_scratch else x
    let (rest, final) := LinSolve.stepLoop s x fuel (i + 1) write_tex
    (GlEvent.bindImageTexture READ_BIND read_tex ::
     GlEvent.bindImageTexture WRITE_BIND write_tex ::
     GlEvent.dispatchCompute (u32cast s.size.x_tiles) (u32cast s.size.y_tiles) 1 ::
     GlEvent.memoryBarrier :: rest, final)

/-- `LinSolve::step`: binds `x0` and `wg_scratch` once, then runs the
ping-pong dispatch loop; returns the trace of backend calls and the
`Result<NativeTexture>` value (`Ok(write_tex)`).  The parameters `b`, `a`,
`c` are accepted as in the source, which does not otherwise use them on the
host side. -/
def LinSolve.step (s : LinSolve) (_b : Bounds) (x x0 : NativeTexture)
    (_a _c : Float) : List GlEvent × Except String NativeTexture :=
  let (loopEvents, write_tex) := LinSolve.stepLoop s x LinSolve.N_DISPATCHES 0 x
  (GlEvent.bindImageTexture X0_BIND x0 ::
   GlEvent.bindImageTexture SCRATCH_BIND s.wg_scratch :: loopEvents,
   .ok write_tex)

/-! ### Trace analysis

Interpreting an event trace: the binding state of the four image units, the
state observed by each compute dispatch, and the dispatch/barrier skeleton. -/

/-- The textures currently bound to image units `0`–`3` (`none` = unbound). -/
structure BindState where
  unit0 : Option NativeTexture
  unit1 : Option NativeTexture
  unit2 : Option NativeTexture
  unit3 : Option NativeTexture
deriving DecidableEq, Repr

/-- The state in which no image unit is bound. -/
def BindState.empty : BindState := ⟨none, none, none, none⟩

/-- Update the binding state with one `bindImageTexture` call. -/
def BindState.set (st : BindState) (unit : Nat) (tex : NativeTexture) : BindState :=
  if unit = 0 then { st with unit0 := some tex }
  else if unit = 1 then { st with unit1 := some tex }
  else if unit = 2 then { st with unit2 := some tex }
  else if unit = 3 then { st with unit3 := some tex }
  else st

/-- Read the binding of a given image unit. -/
def BindState.get (st : BindState) (unit : Nat) : Option NativeTexture :=
  if unit = 0 then st.unit0
  else if unit = 1 then st.unit1
  else if unit = 2 then st.unit2
  else if unit = 3 then st.unit3
  else none

/-- For each `dispatchCompute` event of a trace, in order: the binding state
in effect when it is issued, together with its workgroup counts. -/
def dispatchStates (st : BindState) : List GlEvent → List (BindState × Nat × Nat × Nat)
  | [] => []
  | .bindImageTexture u t :: rest => dispatchStates (st.set u t) rest
  | .dispatchCompute gx gy gz :: rest => (st, gx, gy, gz) :: dispatchStates st rest
  | .memoryBarrier :: rest => dispatchStates st rest

/-- The buffer holding the freshest data after `k` ping-pong writes have
completed: before any write it is `x` (the initial `write_tex`), and after
write `k+1` it is the write-unit binding of dispatch `k`. -/
def currentBuffer (x : NativeTexture) (ds : List (BindState × Nat × Nat × Nat)) :
    Nat → Option NativeTexture
  | 0 => some x
  | k + 1 => (ds.get? k).bind fun d => d.1.unit2

/-- Whether an event is a compute dispatch. -/
def GlEvent.isDispatch : GlEvent → Bool
  | .dispatchCompute _ _ _ => true
  | _ => false

/-- Whether an event is a dispatch or a memory barrier (the synchronization
skeleton of a trace). -/
def GlEvent.isSync : GlEvent → Bool
  | .dispatchCompute _ _ _ => true
  | .memoryBarrier => true
  | _ => false

/-- Whether an event binds the given image unit. -/
def GlEvent.bindsUnit (unit : Nat) : GlEvent → Bool
  | .bindImageTexture u _ => u = unit
  | _ => false

/-- Whether an event binds the given texture to the given image unit. -/
def GlEvent.bindsTexTo (unit : Nat) (tex : NativeTexture) : GlEvent → Bool
  | .bindImageTexture u t => u = unit && t = tex
  | _ => false

/-- Unfolding of the full backend-call trace of `LinSolve::step`: the two
fixed binds followed by four (bind read, bind write, dispatch, barrier)
blocks with alternating read/write textures. -/
theorem LinSolve.step_trace_eq (s : LinSolve) (b : Bounds) (x x0 : NativeTexture)
    (a c : Float) :
    LinSolve.step s b x x0 a c =
      ([GlEvent.bindImageTexture X0_BIND x0,
        GlEvent.bindImageTexture SCRATCH_BIND s.wg_scratch,
        GlEvent.bindImageTexture READ_BIND x,
        GlEvent.bindImageTexture WRITE_BIND s.sim_scratch,
        GlEvent.dispatchCompute (u32cast s.size.x_tiles) (u32cast s.size.y_tiles) 1,
        GlEvent.memoryBarrier,
        GlEvent.bindImageTexture READ_BIND s.sim_scratch,
        GlEvent.bindImageTexture WRITE_BIND x,
        GlEvent.dispatchCompute (u32cast s.size.x_tiles) (u32cast s.size.y_tiles) 1,
        GlEvent.memoryBarrier,
        GlEvent.bindImageTexture READ_BIND x,
        GlEvent.bindImageTexture WRITE_BIND s.sim_scratch,
        GlEvent.dispatchCompute (u32cast s.size.x_tiles) (u32cast s.size.y_tiles) 1,
        GlEvent.memoryBarrier,
        GlEvent.bindImageTexture READ_BIND s.sim_scratch,
        GlEvent.bindImageTexture WRITE_BIND x,
        GlEvent.dispatchCompute (u32cast s.size.x_tiles) (u32cast s.size.y_tiles) 1,
        GlEvent.memoryBarrier],
       .ok x) := rfl

/-! ### Claims -/

/-- C3: for every `SimulationSize` with positive tile counts, `dims()` returns
exactly `(x_tiles * TILE_OUTPUT_SIZE, y_tiles * TILE_OUTPUT_SIZE)`, where
`TILE_OUTPUT_SIZE = LOCAL_SIZE - STEPS_PER_DISPATCH * 2` evaluates to `22`
given `LOCAL_SIZE = 32` and `STEPS_PER_DISPATCH = 5`. -/
theorem simulation_size_dims_formula (s : SimulationSize)
    (_hx : 0 < s.x_tiles) (_hy : 0 < s.y_tiles) :
    s.dims = (s.x_tiles * LinSolve.TILE_OUTPUT_SIZE, s.y_tiles * LinSolve.TILE_OUTPUT_SIZE) ∧
    LinSolve.TILE_OUTPUT_SIZE = LOCAL_SIZE - LinSolve.STEPS_PER_DISPATCH * 2 ∧
    LinSolve.TILE_OUTPUT_SIZE = 22 ∧ LOCAL_SIZE = 32 ∧ LinSolve.STEPS_PER_DISPATCH = 5 :=
  ⟨rfl, rfl, rfl, rfl, rfl⟩

/-- Witness for C3 at the `20 × 20`-tile size used by the repository's test. -/
theorem simulation_size_dims_formula_witness :
    (SimulationSize.mk 20 20).dims =
      ((SimulationSize.mk 20 20).x_tiles * LinSolve.TILE_OUTPUT_SIZE,
       (SimulationSize.mk 20 20).y_tiles * LinSolve.TILE_OUTPUT_SIZE) :=
  (simulation_size_dims_formula (SimulationSize.mk 20 20) (by decide) (by decide)).1

/-- C4: `TOTAL_STEPS` equals exactly `20`, being
`STEPS_PER_DISPATCH * N_DISPATCHES = 5 * 4`; it is a structural constant with
no dependence on any `SimulationSize`. -/
theorem lin_solve_total_steps_eq_20 :
    LinSolve.TOTAL_STEPS = 20 ∧
    LinSolve.TOTAL_STEPS = LinSolve.STEPS_PER_DISPATCH * LinSolve.N_DISPATCHES ∧
    LinSolve.STEPS_PER_DISPATCH = 5 ∧ LinSolve.N_DISPATCHES = 4 := by
  decide

/-- C9: for every combination of inputs — any `Bounds`, any textures `x` and
`x0`, any coefficients `a` and `c` — `LinSolve::step` returns `Ok`; it has no
failing branch. -/
theorem lin_solve_step_infallible (s : LinSolve) (b : Bounds) (x x0 : NativeTexture)
    (a c : Float) : ((LinSolve.step s b x x0 a c).2).isOk = true := rfl

/-- C1: on every dispatch `i < N_DISPATCHES` of `LinSolve::step`, the read
unit and write unit alternate: even `i` reads from the caller-supplied `x`
and writes to the solver's `sim_scratch`; odd `i` reads from `sim_scratch`
and writes to `x`. -/
theorem lin_solve_step_pingpong (s : LinSolve) (b : Bounds) (x x0 : NativeTexture)
    (a c : Float) (i : Nat) (hi : i < LinSolve.N_DISPATCHES) :
    ((dispatchStates BindState.empty (LinSolve.step s b x x0 a c).1).get? i).map
        (fun d => (d.1.get READ_BIND, d.1.get WRITE_BIND)) =
      (if i % 2 = 0 then some (some x, some s.sim_scratch)
       else some (some s.sim_scratch, some x)) := by
  have h4 : i < 4 := hi
  interval_cases i <;> rfl

/-- Witness for C1 at dispatch index `3` of a concrete solver. -/
theorem lin_solve_step_pingpong_witness :
    ((dispatchStates BindState.empty
        (LinSolve.step ⟨5, 6, 7, ⟨2, 3⟩⟩ Bounds.Positive 10 11 1.0 2.0).1).get? 3).map
        (fun d => (d.1.get READ_BIND, d.1.get WRITE_BIND)) =
      (if 3 % 2 = 0 then some (some 10, some (5 : NativeTexture))
       else some (some (5 : NativeTexture), some 10)) :=
  lin_solve_step_pingpong ⟨5, 6, 7, ⟨2, 3⟩⟩ Bounds.Positive 10 11 1.0 2.0 3 (by decide)

/-- C2: `LinSolve::step` always returns `Ok` of the caller-supplied `x`; after
an even number `k` of completed ping-pong writes the current buffer is `x` and
after an odd number it is `sim_scratch`, and the write count is fixed at
`N_DISPATCHES = 4`, an even number, so the return value is `x`. -/
theorem lin_solve_step_returns_x (s : LinSolve) (b : Bounds) (x x0 : NativeTexture)
    (a c : Float) (k : Nat) (hk : k ≤ LinSolve.N_DISPATCHES) :
    (LinSolve.step s b x x0 a c).2 = .ok x ∧
    (dispatchStates BindState.empty (LinSolve.step s b x x0 a c).1).length =
      LinSolve.N_DISPATCHES ∧
    currentBuffer x (dispatchStates BindState.empty (LinSolve.step s b x x0 a c).1) k =
      some (if k % 2 = 0 then x else s.sim_scratch) := by
  refine ⟨rfl, rfl, ?_⟩
  have h4 : k ≤ 4 := hk
  interval_cases k <;> rfl

/-- Witness for C2 after all `N_DISPATCHES = 4` writes of a concrete solver. -/
theorem lin_solve_step_returns_x_witness :
    (LinSolve.step ⟨5, 6, 7, ⟨2, 3⟩⟩ Bounds.NegX 10 11 1.0 8.0).2 = .ok 10 ∧
    (dispatchStates BindState.empty
        (LinSolve.step ⟨5, 6, 7, ⟨2, 3⟩⟩ Bounds.NegX 10 11 1.0 8.0).1).length =
      LinSolve.N_DISPATCHES ∧
    currentBuffer 10 (dispatchStates BindState.empty
        (LinSolve.step ⟨5, 6, 7, ⟨2, 3⟩⟩ Bounds.NegX 10 11 1.0 8.0).1) 4 =
      some (if 4 % 2 = 0 then 10 else (5 : NativeTexture)) :=
  lin_solve_step_returns_x ⟨5, 6, 7, ⟨2, 3⟩⟩ Bounds.NegX 10 11 1.0 8.0 4 (by decide)

/-- C5: every `LinSolve::step` call issues exactly the fixed linear sequence
of backend calls: `N_DISPATCHES = 4` compute dispatches of
`(x_tiles, y_tiles, 1)` workgroups each, with a memory barrier after each
dispatch and before the next; the trace has fixed length `18` with no
branching. -/
theorem lin_solve_step_sync_skeleton (s : LinSolve) (b : Bounds) (x x0 : NativeTexture)
    (a c : Float) (hx : s.size.x_tiles < 2 ^ 32) (hy : s.size.y_tiles < 2 ^ 32) :
    (LinSolve.step s b x x0 a c).1.filter GlEvent.isSync =
      [GlEvent.dispatchCompute s.size.x_tiles s.size.y_tiles 1, GlEvent.memoryBarrier,
       GlEvent.dispatchCompute s.size.x_tiles s.size.y_tiles 1, GlEvent.memoryBarrier,
       GlEvent.dispatchCompute s.size.x_tiles s.size.y_tiles 1, GlEvent.memoryBarrier,
       GlEvent.dispatchCompute s.size.x_tiles s.size.y_tiles 1, GlEvent.memoryBarrier] ∧
    (LinSolve.step s b x x0 a c).1.length = 18 := by
  constructor
  · simp only [LinSolve.step_trace_eq, List.filter, GlEvent.isSync, u32cast,
      Nat.mod_eq_of_lt hx, Nat.mod_eq_of_lt hy]
  · rfl

/-- Witness for C5 on a concrete solver with in-range tile counts. -/
theorem lin_solve_step_sync_skeleton_witness :
    (LinSolve.step ⟨5, 6, 7, ⟨2, 3⟩⟩ Bounds.NegY 10 11 1.0 8.0).1.filter GlEvent.isSync =
      [GlEvent.dispatchCompute 2 3 1, GlEvent.memoryBarrier,
       GlEvent.dispatchCompute 2 3 1, GlEvent.memoryBarrier,
       GlEvent.dispatchCompute 2 3 1, GlEvent.memoryBarrier,
       GlEvent.dispatchCompute 2 3 1, GlEvent.memoryBarrier] ∧
    (LinSolve.step ⟨5, 6, 7, ⟨2, 3⟩⟩ Bounds.NegY 10 11 1.0 8.0).1.length = 18 :=
  lin_solve_step_sync_skeleton ⟨5, 6, 7, ⟨2, 3⟩⟩ Bounds.NegY 10 11 1.0 8.0
    (by decide) (by decide)

/-- C8: in every `LinSolve::step` trace, the first two events — preceding
every dispatch — bind `x0` to unit `X0_BIND` and `wg_scratch` to unit
`SCRATCH_BIND`; each of these units is bound exactly once in the whole trace;
all later bind events target only `READ_BIND` or `WRITE_BIND`; and (for
distinct handles) `x0` is never bound to the write unit. -/
theorem lin_solve_step_fixed_binds (s : LinSolve) (b : Bounds) (x x0 : NativeTexture)
    (a c : Float) (hxx : x0 ≠ x) (hxs : x0 ≠ s.sim_scratch) :
    (LinSolve.step s b x x0 a c).1.take 2 =
      [GlEvent.bindImageTexture X0_BIND x0,
       GlEvent.bindImageTexture SCRATCH_BIND s.wg_scratch] ∧
    ((LinSolve.step s b x x0 a c).1.take 2).countP GlEvent.isDispatch = 0 ∧
    (LinSolve.step s b x x0 a c).1.countP (GlEvent.bindsUnit X0_BIND) = 1 ∧
    (LinSolve.step s b x x0 a c).1.countP (GlEvent.bindsUnit SCRATCH_BIND) = 1 ∧
    ((LinSolve.step s b x x0 a c).1.drop 2).all
      (fun e => e.isSync || e.bindsUnit READ_BIND || e.bindsUnit WRITE_BIND) = true ∧
    (LinSolve.step s b x x0 a c).1.countP (GlEvent.bindsTexTo WRITE_BIND x0) = 0 := by
  refine ⟨rfl, rfl, rfl, rfl, rfl, ?_⟩
  simp only [LinSolve.step_trace_eq, List.countP, List.countP.go, GlEvent.bindsTexTo]
  simp [X0_BIND, SCRATCH_BIND, READ_BIND, WRITE_BIND, Ne.symm hxx, Ne.symm hxs]

/-- Witness for C8 on a concrete solver with pairwise-distinct handles. -/
theorem lin_solve_step_fixed_binds_witness :
    (LinSolve.step ⟨5, 6, 7, ⟨2, 3⟩⟩ Bounds.Positive 10 11 1.0 8.0).1.take 2 =
      [GlEvent.bindImageTexture X0_BIND 11,
       GlEvent.bindImageTexture SCRATCH_BIND 6] ∧
    ((LinSolve.step ⟨5, 6, 7, ⟨2, 3⟩⟩ Bounds.Positive 10 11 1.0 8.0).1.take 2).countP
      GlEvent.isDispatch = 0 ∧
    (LinSolve.step ⟨5, 6, 7, ⟨2, 3⟩⟩ Bounds.Positive 10 11 1.0 8.0).1.countP
      (GlEvent.bindsUnit X0_BIND) = 1 ∧
    (LinSolve.step ⟨5, 6, 7, ⟨2, 3⟩⟩ Bounds.Positive 10 11 1.0 8.0).1.countP
      (GlEvent.bindsUnit SCRATCH_BIND) = 1 ∧
    ((LinSolve.step ⟨5, 6, 7, ⟨2, 3⟩⟩ Bounds.Positive 10 11 1.0 8.0).1.drop 2).all
      (fun e => e.isSync || e.bindsUnit READ_BIND || e.bindsUnit WRITE_BIND) = true ∧
    (LinSolve.step ⟨5, 6, 7, ⟨2, 3⟩⟩ Bounds.Positive 10 11 1.0 8.0).1.countP
      (GlEvent.bindsTexTo WRITE_BIND 11) = 0 :=
  lin_solve_step_fixed_binds ⟨5, 6, 7, ⟨2, 3⟩⟩ Bounds.Positive 10 11 1.0 8.0
    (by decide) (by decide)

/-- Whether a constructor-trace event is an image allocation. -/
def NewEvent.isCreateImage : NewEvent → Bool
  | .createImage _ _ => true
  | _ => false

/-- `as i32` is the identity on values that fit in a signed 32-bit integer. -/
theorem i32cast_eq_of_lt {n : Nat} (h : n < 2 ^ 31) : i32cast n = (n : Int) := by
  have h32 : n < 2 ^ 32 := lt_trans h (by norm_num)
  unfold i32cast
  rw [Nat.mod_eq_of_lt h32, if_pos h]

/-- C6: for every `SimulationSize` whose scratch dimensions fit in `i32`,
successful construction by `LinSolve::new` compiles one program and allocates
exactly two images — `wg_scratch` at `(x_tiles * LOCAL_SIZE,
y_tiles * LOCAL_SIZE)` and `sim_scratch` at `size.dims()`, in that order after
the program — and the returned solver stores those two images together with
the compiled program and the size. -/
theorem lin_solve_new_success (gl : GlContext) (size : SimulationSize)
    (tr : List NewEvent) (s : LinSolve)
    (h : LinSolve.new gl size = (tr, .ok s))
    (hw : size.x_tiles * LOCAL_SIZE < 2 ^ 31) (hh : size.y_tiles * LOCAL_SIZE < 2 ^ 31) :
    tr = [NewEvent.createProgram,
          NewEvent.createImage ((size.x_tiles * LOCAL_SIZE : Nat) : Int)
            ((size.y_tiles * LOCAL_SIZE : Nat) : Int),
          NewEvent.createImage ((size.dims.1 : Nat) : Int) ((size.dims.2 : Nat) : Int)] ∧
    gl.createProgramResult = .ok s.program ∧
    gl.createImageResult ((size.x_tiles * LOCAL_SIZE : Nat) : Int)
      ((size.y_tiles * LOCAL_SIZE : Nat) : Int) = .ok s.wg_scratch ∧
    gl.createImageResult ((size.dims.1 : Nat) : Int) ((size.dims.2 : Nat) : Int) =
      .ok s.sim_scratch ∧
    s.size = size := by
  have hdw : size.dims.1 < 2 ^ 31 := by
    refine lt_of_le_of_lt ?_ hw
    exact Nat.mul_le_mul_left size.x_tiles (by decide)
  have hdh : size.dims.2 < 2 ^ 31 := by
    refine lt_of_le_of_lt ?_ hh
    exact Nat.mul_le_mul_left size.y_tiles (by decide)
  rw [show ((size.x_tiles * LOCAL_SIZE : Nat) : Int) = i32cast (size.x_tiles * LOCAL_SIZE)
        from (i32cast_eq_of_lt hw).symm,
      show ((size.y_tiles * LOCAL_SIZE : Nat) : Int) = i32cast (size.y_tiles * LOCAL_SIZE)
        from (i32cast_eq_of_lt hh).symm,
      show ((size.dims.1 : Nat) : Int) = i32cast size.dims.1
        from (i32cast_eq_of_lt hdw).symm,
      show ((size.dims.2 : Nat) : Int) = i32cast size.dims.2
        from (i32cast_eq_of_lt hdh).symm]
  unfold LinSolve.new at h
  cases hp : gl.createProgramResult with
  | error e => rw [hp] at h; simp at h
  | ok program =>
    rw [hp] at h
    simp only at h
    cases h1 : gl.createImageResult (i32cast (size.x_tiles * LOCAL_SIZE))
        (i32cast (size.y_tiles * LOCAL_SIZE)) with
    | error e => rw [h1] at h; simp at h
    | ok workgroup_scratch =>
      rw [h1] at h
      simp only at h
      cases h2 : gl.createImageResult (i32cast size.dims.1) (i32cast size.dims.2) with
      | error e => rw [h2] at h; simp at h
      | ok sim_scratch =>
        rw [h2] at h
        simp only [Prod.mk.injEq, Except.ok.injEq] at h
        obtain ⟨htr, hs⟩ := h
        subst htr
        subst hs
        exact ⟨rfl, rfl, rfl, rfl, rfl⟩

/-- A concrete backend on which every call succeeds, used as witness input. -/
def glOk : GlContext :=
  ⟨.ok 42, fun w h => .ok (w.toNat * 100000 + h.toNat)⟩

/-- Witness for C6: `LinSolve::new` on `glOk` with a `2 × 3`-tile size. -/
theorem lin_solve_new_success_witness :
    [NewEvent.createProgram, NewEvent.createImage 64 96, NewEvent.createImage 44 66] =
      [NewEvent.createProgram,
       NewEvent.createImage (((SimulationSize.mk 2 3).x_tiles * LOCAL_SIZE : Nat) : Int)
         (((SimulationSize.mk 2 3).y_tiles * LOCAL_SIZE : Nat) : Int),
       NewEvent.createImage (((SimulationSize.mk 2 3).dims.1 : Nat) : Int)
         (((SimulationSize.mk 2 3).dims.2 : Nat) : Int)] ∧
    glOk.createProgramResult = .ok (LinSolve.mk 4400066 6400096 42 ⟨2, 3⟩).program ∧
    glOk.createImageResult (((SimulationSize.mk 2 3).x_tiles * LOCAL_SIZE : Nat) : Int)
      (((SimulationSize.mk 2 3).y_tiles * LOCAL_SIZE : Nat) : Int) =
      .ok (LinSolve.mk 4400066 6400096 42 ⟨2, 3⟩).wg_scratch ∧
    glOk.createImageResult (((SimulationSize.mk 2 3).dims.1 : Nat) : Int)
      (((SimulationSize.mk 2 3).dims.2 : Nat) : Int) =
      .ok (LinSolve.mk 4400066 6400096 42 ⟨2, 3⟩).sim_scratch ∧
    (LinSolve.mk 4400066 6400096 42 ⟨2, 3⟩).size = SimulationSize.mk 2 3 :=
  lin_solve_new_success glOk (SimulationSize.mk 2 3)
    [NewEvent.createProgram, NewEvent.createImage 64 96, NewEvent.createImage 44 66]
    (LinSolve.mk 4400066 6400096 42 ⟨2, 3⟩) (by rfl) (by decide) (by decide)

/-- C7: if program compilation or linking fails in `LinSolve::new`, the
constructor returns the backend's diagnostic text as its error, having issued
only the `createProgram` call: the trace contains no image allocation, so
neither `sim_scratch` nor `wg_scratch` exists and no solver is constructed. -/
theorem lin_solve_new_compile_failure (gl : GlContext) (size : SimulationSize)
    (e : String) (h : gl.createProgramResult = .error e) :
    LinSolve.new gl size = ([NewEvent.createProgram], .error e) ∧
    (LinSolve.new gl size).1.countP NewEvent.isCreateImage = 0 := by
  unfold LinSolve.new
  rw [h]
  exact ⟨rfl, rfl⟩

/-- A concrete backend whose program compilation fails, used as witness input. -/
def glBadCompile : GlContext :=
  ⟨.error "0:1: error: syntax error, unexpected IDENTIFIER", fun w h => .ok (w.toNat + h.toNat)⟩

/-- Witness for C7: construction on the failing backend. -/
theorem lin_solve_new_compile_failure_witness :
    LinSolve.new glBadCompile ⟨20, 20⟩ =
      ([NewEvent.createProgram], .error "0:1: error: syntax error, unexpected IDENTIFIER") ∧
    (LinSolve.new glBadCompile ⟨20, 20⟩).1.countP NewEvent.isCreateImage = 0 :=
  lin_solve_new_compile_failure glBadCompile ⟨20, 20⟩
    "0:1: error: syntax error, unexpected IDENTIFIER" rfl
